import Mathlib

/-!
Verification development for the hostdevice network driver: a shallow
embedding of the namespace relocation engine (`pkg/net/hostdevice.go`)
and the lifecycle coordinator (`drivers/hostdevice` main), with theorems
settling the specification claims.

Kernel-level netlink calls are modelled by explicit oracle records
(`AttachKernel`, `DetachKernel`) or oracle functions giving the outcome
of each call site, so the Go control flow around those calls is embedded
faithfully while the kernel itself stays abstract.
-/

namespace KND

/-- Errors observable in the embedded code.  `dumpInterrupted` stands for
`netlink.ErrDumpInterrupted` (the kernel's `NLM_F_DUMP_INTR` artifact);
`wrap` stands for a `fmt.Errorf` wrapping of an inner error. -/
inductive NetError where
  | dumpInterrupted
  | wrap (msg : String) (inner : NetError)
  | other (msg : String)
deriving DecidableEq

/-- Association-list lookup, modelling a Go map read (missing key gives the
zero value, modelled as `none`). -/
def alookup {α : Type} (m : List (String × α)) (k : String) : Option α :=
  match m.find? (fun p => p.1 == k) with
  | some p => some p.2
  | none => none

/-- Association-list update, modelling a Go map assignment `m[k] = v`. -/
def aset {α : Type} (m : List (String × α)) (k : String) (v : α) : List (String × α) :=
  (k, v) :: List.filter (fun p => !(p.1 == k)) m

/-- Association-list removal, modelling Go's `delete(m, k)`. -/
def aerase {α : Type} (m : List (String × α)) (k : String) : List (String × α) :=
  List.filter (fun p => !(p.1 == k)) m

/-! Relocation engine: `pkg/net/hostdevice.go`. -/

/-- The subset of `netlink.LinkAttrs` the relocation engine reads or sets. -/
structure LinkAttrs where
  index : Int
  name : String
  linkAlias : String
  hardwareAddr : String
  mtu : Nat
  gsoMaxSize : Nat
  groMaxSize : Nat
  gsoIPv4MaxSize : Nat
  groIPv4MaxSize : Nat
deriving DecidableEq

/-- Zero value of `LinkAttrs` (Go's `netlink.LinkAttrs{}`). -/
def emptyLinkAttrs : LinkAttrs :=
  { index := 0, name := "", linkAlias := "", hardwareAddr := "",
    mtu := 0, gsoMaxSize := 0, groMaxSize := 0, gsoIPv4MaxSize := 0, groIPv4MaxSize := 0 }

/-- Result of a `LinkByName` call: the returned link value and the returned
error.  With `ErrDumpInterrupted` netlink still returns the (partial) link,
which is why the Go code can proceed after absorbing that error. -/
structure LinkLookup where
  link : LinkAttrs
  err : Option NetError
deriving DecidableEq

/-- A `LinkLookup` that succeeded outright. -/
def okLookup (l : LinkAttrs) : LinkLookup :=
  { link := l, err := none }

/-- The Go pattern `err != nil && !errors.Is(err, netlink.ErrDumpInterrupted)`:
a dump-interrupted error is absorbed (treated as success), anything else is
kept. -/
def absorbDumpInterrupted (e : Option NetError) : Option NetError :=
  match e with
  | some NetError.dumpInterrupted => none
  | x => x

/-- The Go pattern `fmt.Errorf(msg, err)` applied to an optional error. -/
def wrapErr (msg : String) : Option NetError → Option NetError
  | some e => some (NetError.wrap msg e)
  | none => none

/-- One attribute of the low-level `RTM_NEWLINK` modify request. -/
inductive ReqAttr where
  | ifname (s : String)
  | mtu (n : Nat)
  | hwaddress (s : String)
  | gsoMaxSize (n : Nat)
  | groMaxSize (n : Nat)
  | gsoIPv4MaxSize (n : Nat)
  | groIPv4MaxSize (n : Nat)
  | netNsFd
deriving DecidableEq

/-- The attribute-by-attribute construction of the attach modify-link request
(`NsAttachNetdev` lines building `req`): the in-namespace name, then each
configuration value only when non-zero / non-empty, then the target
namespace file descriptor. -/
def attachRequestAttrs (attrs newAttr : LinkAttrs) : List ReqAttr :=
  let ifName := if newAttr.name ≠ "" then newAttr.name else attrs.name
  [ReqAttr.ifname ifName]
    ++ (if newAttr.mtu ≠ 0 then [ReqAttr.mtu newAttr.mtu] else [])
    ++ (if newAttr.hardwareAddr ≠ "" then [ReqAttr.hwaddress newAttr.hardwareAddr] else [])
    ++ (if newAttr.gsoMaxSize ≠ 0 then [ReqAttr.gsoMaxSize newAttr.gsoMaxSize] else [])
    ++ (if newAttr.groMaxSize ≠ 0 then [ReqAttr.groMaxSize newAttr.groMaxSize] else [])
    ++ (if newAttr.gsoIPv4MaxSize ≠ 0 then [ReqAttr.gsoIPv4MaxSize newAttr.gsoIPv4MaxSize] else [])
    ++ (if newAttr.groIPv4MaxSize ≠ 0 then [ReqAttr.groIPv4MaxSize newAttr.groIPv4MaxSize] else [])
    ++ [ReqAttr.netNsFd]

/-- Kernel oracle for one `NsAttachNetdev` run: the outcome of each kernel
call site, in source order. -/
structure AttachKernel where
  linkByNameHost : LinkLookup
  linkSetDownErr : Option NetError
  getNsErr : Option NetError
  getSocketErr : Option NetError
  executeErr : Option NetError
  newHandleErr : Option NetError
  linkByNameNs : LinkLookup
  addrAddErr : Nat → Option NetError
  linkSetUpErr : Option NetError

/-- The `resourceapi.NetworkDeviceData` result of a successful attach. -/
structure NetworkDeviceData where
  interfaceName : String
  hardwareAddress : String
  ips : List String
deriving DecidableEq

/-- The address-assignment loop of `NsAttachNetdev`: each `AddrAdd` failure
aborts with a wrapped error naming the offending address; successes are
collected into the reported IP list. -/
def addAddresses (addrAddErr : Nat → Option NetError) (containerNsPath : String) :
    Nat → List String → Except NetError (List String)
  | _, [] => Except.ok []
  | i, a :: rest =>
    match addrAddErr i with
    | some e =>
        Except.error (NetError.wrap
          ("fail to set up address " ++ a ++ " on namespace " ++ containerNsPath) e)
    | none =>
      match addAddresses addrAddErr containerNsPath (i + 1) rest with
      | Except.error e => Except.error e
      | Except.ok ips => Except.ok (a :: ips)

/-- Outcome of an attach: the modify-link request that was issued (when the
run reached that point) and the overall result. -/
structure AttachOutcome where
  request : Option (List ReqAttr)
  result : Except NetError NetworkDeviceData

/-- Embedding of `NsAttachNetdev` (pkg/net/hostdevice.go): resolve the host
device (absorbing dump-interrupted), set it down, resolve the container
namespace and a socket, issue the single modify-link request (absorbing
dump-interrupted), open a handle in the target namespace, re-resolve the
device there (absorbing dump-interrupted), add each address, and set the
device up. -/
def NsAttachNetdev (K : AttachKernel) (hostIfName containerNsPath : String)
    (newAttr : LinkAttrs) (addresses : List String) : AttachOutcome :=
  match absorbDumpInterrupted K.linkByNameHost.err with
  | some e => { request := none, result := Except.error e }
  | none =>
   match wrapErr ("failed to set " ++ K.linkByNameHost.link.name ++ " down")
       K.linkSetDownErr with
   | some e => { request := none, result := Except.error e }
   | none =>
    match K.getNsErr with
    | some e => { request := none, result := Except.error e }
    | none =>
     match wrapErr "could not get network namespace handle" K.getSocketErr with
     | some e => { request := none, result := Except.error e }
     | none =>
      let attrs := K.linkByNameHost.link
      let ifName := if newAttr.name ≠ "" then newAttr.name else attrs.name
      let req := attachRequestAttrs attrs newAttr
      match absorbDumpInterrupted K.executeErr with
      | some e => { request := some req, result := Except.error e }
      | none =>
       match K.newHandleErr with
       | some e => { request := some req, result := Except.error e }
       | none =>
        match absorbDumpInterrupted K.linkByNameNs.err with
        | some e =>
            { request := some req,
              result := Except.error (NetError.wrap
                ("link not found for interface " ++ ifName ++ " on namespace "
                  ++ containerNsPath) e) }
        | none =>
         let nsLink := K.linkByNameNs.link
         match addAddresses K.addrAddErr containerNsPath 0 addresses with
         | Except.error e => { request := some req, result := Except.error e }
         | Except.ok ips =>
          match wrapErr ("failt to set up interface " ++ nsLink.name ++ " on namespace "
              ++ containerNsPath) K.linkSetUpErr with
          | some e => { request := some req, result := Except.error e }
          | none =>
            { request := some req,
              result := Except.ok
                { interfaceName := nsLink.name,
                  hardwareAddress := nsLink.hardwareAddr, ips := ips } }

/-- Kernel oracle for one `NsDetachNetdev` run, one field per kernel call
site in source order. -/
structure DetachKernel where
  getNsErr : Option NetError
  newHandleErr : Option NetError
  linkByNameNs : LinkLookup
  linkSetDownErr : Option NetError
  getRootNsErr : Option NetError
  getSocketErr : Option NetError
  executeErr : Option NetError
  linkByNameHost : LinkLookup
  linkSetUpErr : Option NetError
deriving DecidableEq

/-- Outcome of a detach: the interface name carried in the rename-and-move
request (when the run reached the request construction) and the returned
error, `none` meaning success. -/
structure DetachOutcome where
  sentName : Option String
  result : Option NetError
deriving DecidableEq

/-- Embedding of `NsDetachNetdev` (pkg/net/hostdevice.go): resolve the
container namespace and a handle in it, resolve the device by name there
(any error, dump-interrupted included, is wrapped and returned), set the
device down, overwrite the recorded name with the alias when the alias is
non-empty, then build the rename-and-move request whose name is `outName`
when `outName` is non-empty and the (possibly alias-overwritten) recorded
name otherwise, execute it, re-resolve the device on the host (absorbing
dump-interrupted) and set it up. -/
def NsDetachNetdev (K : DetachKernel) (containerNsPath devName outName : String) :
    DetachOutcome :=
  match wrapErr ("could not get network namespace from path " ++ containerNsPath
      ++ " for network device " ++ devName) K.getNsErr with
  | some e => { sentName := none, result := some e }
  | none =>
   match wrapErr "could not get network namespace handle" K.newHandleErr with
   | some e => { sentName := none, result := some e }
   | none =>
    match K.linkByNameNs.err with
    | some e =>
        { sentName := none,
          result := some (NetError.wrap ("link not found for interface " ++ devName
            ++ " on namespace " ++ containerNsPath) e) }
    | none =>
     match K.linkSetDownErr with
     | some e => { sentName := none, result := some e }
     | none =>
      let nsLink := K.linkByNameNs.link
      let attrsName := if nsLink.linkAlias ≠ "" then nsLink.linkAlias else nsLink.name
      match K.getRootNsErr with
      | some e => { sentName := none, result := some e }
      | none =>
       match wrapErr "could not get network namespace handle" K.getSocketErr with
       | some e => { sentName := none, result := some e }
       | none =>
        let ifName := if outName ≠ "" then outName else attrsName
        match K.executeErr with
        | some e => { sentName := some ifName, result := some e }
        | none =>
         match absorbDumpInterrupted K.linkByNameHost.err with
         | some e => { sentName := some ifName, result := some e }
         | none =>
          match wrapErr ("failed to set " ++ K.linkByNameHost.link.name ++ " down")
              K.linkSetUpErr with
          | some e => { sentName := some ifName, result := some e }
          | none => { sentName := some ifName, result := none }

/-! Lifecycle coordinator: the `drivers/hostdevice` main program. -/

/-- `AllocatedDevice`: a network device allocated to a pod. -/
structure AllocatedDevice where
  name : String
  attributes : List (String × String)
  poolName : String
  request : String
deriving DecidableEq

/-- The dynamically-typed prepared payload (`interface\x7b\x7d` in Go): this
driver only ever stores a device-name string, but the downcast at use can
meet a non-string value. -/
inductive Prepared where
  | str (s : String)
  | nonString
deriving DecidableEq

/-- `SharedState`: the data shared between the DRA and NRI hooks, guarded by
the driver's single mutex. -/
structure SharedState where
  podDeviceConfig : List (String × List AllocatedDevice)
  preparedData : List (String × Prepared)
deriving DecidableEq

/-- The state built by `NewNetworkDriver`: both maps empty. -/
def initialSharedState : SharedState :=
  { podDeviceConfig := [], preparedData := [] }

/-- The parts of a `resourceapi.ResourceClaim` the driver reads:
`Status.Allocation` (`none` when nil) with its device results' names. -/
structure ResourceClaim where
  uid : String
  name : String
  allocation : Option (List String)
deriving DecidableEq

/-- A claim's allocation carries zero granted devices: allocation nil or an
empty device-results list (the guard tested by `prepareDevice`). -/
def zeroDevices (claim : ResourceClaim) : Prop :=
  claim.allocation = none ∨ claim.allocation = some []

/-- Embedding of `prepareDevice`: fail when the allocation carries zero
granted devices, otherwise return the first result's device name. -/
def prepareDevice (claim : ResourceClaim) : Except NetError Prepared :=
  match claim.allocation with
  | none => Except.error (NetError.other ("claim " ++ claim.name ++ " has no allocated devices"))
  | some [] => Except.error (NetError.other ("claim " ++ claim.name ++ " has no allocated devices"))
  | some (d :: _) => Except.ok (Prepared.str d)

/-- The loop body of `PrepareResourceClaims`: per claim, on `prepareDevice`
error record the error in the results map and continue; on success store the
prepared data under the claim's UID (under the lock) and record a zero
result. -/
def prepLoop (st : SharedState) (results : List (String × Option NetError)) :
    List ResourceClaim → SharedState × List (String × Option NetError)
  | [] => (st, results)
  | claim :: rest =>
    match prepareDevice claim with
    | Except.error e => prepLoop st (aset results claim.uid (some e)) rest
    | Except.ok preparedData =>
        prepLoop { st with preparedData := aset st.preparedData claim.uid preparedData }
          (aset results claim.uid none) rest

/-- Embedding of `PrepareResourceClaims`: fold the loop over the batch,
returning the final shared state and the per-claim results map. -/
def prepareResourceClaims (st : SharedState) (claims : List ResourceClaim) :
    SharedState × List (String × Option NetError) :=
  prepLoop st [] claims

/-- The parts of `kubeletplugin.NamespacedObject` the driver reads. -/
structure NamespacedObject where
  uid : String
  name : String
deriving DecidableEq

/-- Embedding of `unprepareDevice`: a no-op that never errors. -/
def unprepareDevice (_claim : NamespacedObject) : Option NetError :=
  none

/-- The loop body of `UnprepareResourceClaims`: per claim, record an error
only if `unprepareDevice` returned one, then delete the prepared data under
the claim's UID (under the lock). -/
def unprepLoop (st : SharedState) (errs : List (String × NetError)) :
    List NamespacedObject → SharedState × List (String × NetError)
  | [] => (st, errs)
  | claim :: rest =>
    let errs2 := match unprepareDevice claim with
      | some e => aset errs claim.uid e
      | none => errs
    unprepLoop { st with preparedData := aerase st.preparedData claim.uid } errs2 rest

/-- Embedding of `UnprepareResourceClaims`. -/
def unprepareResourceClaims (st : SharedState) (claims : List NamespacedObject) :
    SharedState × List (String × NetError) :=
  unprepLoop st [] claims

/-- The parts of an NRI `api.PodSandbox` the driver reads: UID, names, and
the Linux namespace list as (type, path) pairs. -/
structure Pod where
  uid : String
  name : String
  podNamespace : String
  namespaces : List (String × String)
deriving DecidableEq

/-- Embedding of `getNetworkNamespace`: the path of the first namespace of
type "network", or the empty string when none exists. -/
def getNetworkNamespace (pod : Pod) : String :=
  match pod.namespaces.find? (fun ns => ns.1 == "network") with
  | some ns => ns.2
  | none => ""

/-- Observable events of a lifecycle handler run: mutex acquisition and
release, and each relocation-engine invocation with the host device name and
namespace path it was called with. -/
inductive Event where
  | lock
  | unlock
  | attach (hostDev ns : String)
  | detach (hostDev ns : String)
deriving DecidableEq

/-- Embedding of `configureDeviceForPod`: downcast the prepared payload to a
string (error otherwise) and invoke `NsAttachNetdev` with the host device
name as both the source and in-pod name.  The kernel outcome of the attach
is given by the `attach` oracle. -/
def configureDeviceForPod (attach : String → String → Option NetError)
    (_device : AllocatedDevice) (networkNamespace : String)
    (preparedData : Option Prepared) : List Event × Option NetError :=
  match preparedData with
  | some (Prepared.str hostDeviceName) =>
      ([Event.attach hostDeviceName networkNamespace], attach hostDeviceName networkNamespace)
  | _ => ([], some (NetError.other "invalid prepared data type"))

/-- The device loop of `RunPodSandbox`: a `configureDeviceForPod` error
aborts the loop and is returned. -/
def runLoop (attach : String → String → Option NetError) (networkNamespace : String)
    (preparedData : Option Prepared) : List AllocatedDevice → List Event × Option NetError
  | [] => ([], none)
  | device :: rest =>
    match configureDeviceForPod attach device networkNamespace preparedData with
    | (evs, some e) => (evs, some e)
    | (evs, none) =>
      match runLoop attach networkNamespace preparedData rest with
      | (evs2, r) => (evs ++ evs2, r)

/-- Embedding of `RunPodSandbox`: a missing network namespace is a hard
error returned before the lock is taken; otherwise the mutex is acquired
(released by defer on return), the device list and prepared data are read,
and every device is configured while the lock is held. -/
def runPodSandbox (attach : String → String → Option NetError)
    (st : SharedState) (pod : Pod) : List Event × Option NetError :=
  let networkNamespace := getNetworkNamespace pod
  if networkNamespace = "" then
    ([], some (NetError.other ("pod " ++ pod.podNamespace ++ "/" ++ pod.name
      ++ " has no network namespace")))
  else
    let devices := (alookup st.podDeviceConfig pod.uid).getD []
    let preparedData := alookup st.preparedData pod.uid
    let body := runLoop attach networkNamespace preparedData devices
    (Event.lock :: body.1 ++ [Event.unlock], body.2)

/-- Embedding of `cleanupDeviceForPod`: downcast the prepared payload to a
string (error otherwise) and invoke `NsDetachNetdev` on the pod namespace
with that name.  The kernel outcome is given by the `detach` oracle. -/
def cleanupDeviceForPod (detach : String → String → Option NetError)
    (_device : AllocatedDevice) (networkNamespace : String)
    (preparedData : Option Prepared) : List Event × Option NetError :=
  match preparedData with
  | some (Prepared.str hostDeviceName) =>
      ([Event.detach hostDeviceName networkNamespace], detach hostDeviceName networkNamespace)
  | _ => ([], some (NetError.other "invalid prepared data type"))

/-- The device loop of `StopPodSandbox`: a cleanup failure is logged and the
loop continues with the remaining devices. -/
def stopLoop (detach : String → String → Option NetError) (networkNamespace : String)
    (preparedData : Option Prepared) : List AllocatedDevice → List Event
  | [] => []
  | device :: rest =>
    (cleanupDeviceForPod detach device networkNamespace preparedData).1
      ++ stopLoop detach networkNamespace preparedData rest

/-- Embedding of `StopPodSandbox`: no check on the namespace path; the mutex
is acquired, the device list and prepared data are read, every device is
cleaned up best-effort while the lock is held, and the handler returns
success. -/
def stopPodSandbox (detach : String → String → Option NetError)
    (st : SharedState) (pod : Pod) : List Event × Option NetError :=
  let networkNamespace := getNetworkNamespace pod
  let devices := (alookup st.podDeviceConfig pod.uid).getD []
  let preparedData := alookup st.preparedData pod.uid
  (Event.lock :: stopLoop detach networkNamespace preparedData devices ++ [Event.unlock], none)

/-- Embedding of `RemovePodSandbox`: under the lock, delete both map entries
for the pod's UID and return success. -/
def removePodSandbox (st : SharedState) (pod : Pod) : SharedState × Option NetError :=
  ({ podDeviceConfig := aerase st.podDeviceConfig pod.uid,
     preparedData := aerase st.preparedData pod.uid }, none)

/-- The state-affecting operations of the driver, used to characterise the
reachable shared states. -/
inductive Op where
  | prepare (claims : List ResourceClaim)
  | unprepare (objs : List NamespacedObject)
  | runPod (pod : Pod)
  | stopPod (pod : Pod)
  | removePod (pod : Pod)

/-- State transition of one driver operation (`RunPodSandbox` and
`StopPodSandbox` never mutate the shared state). -/
def applyOp (st : SharedState) : Op → SharedState
  | Op.prepare claims => (prepareResourceClaims st claims).1
  | Op.unprepare objs => (unprepareResourceClaims st objs).1
  | Op.runPod _ => st
  | Op.stopPod _ => st
  | Op.removePod pod => (removePodSandbox st pod).1

/-! Trace helpers and concrete fixtures. -/

/-- Whether an event is the mutex acquisition. -/
def isLockEvent : Event → Bool
  | Event.lock => true
  | _ => false

/-- Whether an event is the mutex release. -/
def isUnlockEvent : Event → Bool
  | Event.unlock => true
  | _ => false

/-- Whether an event is a relocation-engine invocation. -/
def isRelocEvent : Event → Bool
  | Event.attach _ _ => true
  | Event.detach _ _ => true
  | _ => false

/-- Whether an event is a detach invocation. -/
def isDetachEvent : Event → Bool
  | Event.detach _ _ => true
  | _ => false

/-- The events of a handler trace that happen while the lock is held:
between the first `lock` and the following `unlock`. -/
def criticalEvents (tr : List Event) : List Event :=
  (((tr.dropWhile (fun e => !isLockEvent e)).drop 1).takeWhile (fun e => !isUnlockEvent e))

/-- The property claimed in the spec for a handler trace: no
relocation-engine call inside the critical section. -/
def relocOutsideLock (tr : List Event) : Bool :=
  (criticalEvents tr).all (fun e => !isRelocEvent e)

/-- A concrete allocated device. -/
def device0 : AllocatedDevice :=
  { name := "eth-phys0", attributes := [], poolName := "node-a", request := "req-0" }

/-- A second concrete allocated device. -/
def device1 : AllocatedDevice :=
  { name := "eth-phys1", attributes := [], poolName := "node-a", request := "req-1" }

/-- A concrete pod with a network namespace. -/
def pod0 : Pod :=
  { uid := "w1", name := "pod-a", podNamespace := "default",
    namespaces := [("network", "/run/ns/w1")] }

/-- A concrete pod without any network-type namespace. -/
def podNoNet : Pod :=
  { uid := "w1", name := "pod-b", podNamespace := "default",
    namespaces := [("ipc", "/run/ns/ipc1")] }

/-- A concrete shared state with one allocated device and a prepared
artifact for workload `w1`. -/
def st0 : SharedState :=
  { podDeviceConfig := [("w1", [device0])],
    preparedData := [("w1", Prepared.str "eth-phys0")] }

/-- A concrete shared state with two allocated devices for workload `w1`. -/
def st2 : SharedState :=
  { podDeviceConfig := [("w1", [device0, device1])],
    preparedData := [("w1", Prepared.str "eth-phys0")] }

/-- A concrete claim whose allocation is nil. -/
def zeroClaim0 : ResourceClaim :=
  { uid := "c1", name := "claim-a", allocation := none }

/-- A concrete in-namespace link carrying a recorded alias. -/
def detachLink0 : LinkAttrs :=
  { emptyLinkAttrs with index := 7, name := "eth0", linkAlias := "orig" }

/-- A concrete host-side link. -/
def hostLink0 : LinkAttrs :=
  { emptyLinkAttrs with index := 7, name := "rest" }

/-- A detach kernel oracle on which every call succeeds. -/
def detachK0 : DetachKernel :=
  { getNsErr := none, newHandleErr := none, linkByNameNs := okLookup detachLink0,
    linkSetDownErr := none, getRootNsErr := none, getSocketErr := none,
    executeErr := none, linkByNameHost := okLookup hostLink0, linkSetUpErr := none }

/-- A detach kernel oracle whose in-namespace device enumeration reports
only the dump-interrupted condition; every other call succeeds. -/
def detachKInterrupted : DetachKernel :=
  { detachK0 with linkByNameNs := { link := detachLink0, err := some NetError.dumpInterrupted } }

/-- A detach kernel oracle whose host-side re-resolution reports only the
dump-interrupted condition; every other call succeeds. -/
def detachKHostInterrupted : DetachKernel :=
  { detachK0 with linkByNameHost := { link := hostLink0, err := some NetError.dumpInterrupted } }

/-- A concrete host link for the attach fixtures. -/
def attachLink1 : LinkAttrs :=
  { emptyLinkAttrs with index := 3, name := "eth-phys0" }

/-- An attach kernel oracle on which every enumeration step reports only the
dump-interrupted condition and every other call succeeds. -/
def attachK1 : AttachKernel :=
  { linkByNameHost := { link := attachLink1, err := some NetError.dumpInterrupted },
    linkSetDownErr := none, getNsErr := none, getSocketErr := none,
    executeErr := some NetError.dumpInterrupted, newHandleErr := none,
    linkByNameNs := { link := attachLink1, err := some NetError.dumpInterrupted },
    addrAddErr := fun _ => none, linkSetUpErr := none }

/-! Association-list lemmas. -/

/-- Lookup on a cons cell. -/
theorem alookup_cons {α : Type} (a : String × α) (m : List (String × α)) (k : String) :
    alookup (a :: m) k = if a.1 == k then some a.2 else alookup m k := by
  cases hb : (a.1 == k) with
  | true =>
    unfold alookup
    rw [List.find?_cons_of_pos (p := fun x => x.1 == k) m hb]
    simp [hb]
  | false =>
    unfold alookup
    rw [List.find?_cons_of_neg (p := fun x => x.1 == k) m (by simp [hb])]
    simp [hb]

/-- Erasing a key drops a head entry carrying that key. -/
theorem aerase_cons_drop {α : Type} (a : String × α) (m : List (String × α)) (k : String)
    (h : (a.1 == k) = true) : aerase (a :: m) k = aerase m k := by
  unfold aerase
  simp [List.filter_cons, h]

/-- Erasing a key keeps a head entry carrying a different key. -/
theorem aerase_cons_keep {α : Type} (a : String × α) (m : List (String × α)) (k : String)
    (h : (a.1 == k) = false) : aerase (a :: m) k = a :: aerase m k := by
  unfold aerase
  simp [List.filter_cons, h]

/-- Setting a key makes it present with the set value. -/
theorem alookup_aset_self {α : Type} (m : List (String × α)) (k : String) (v : α) :
    alookup (aset m k v) k = some v := by
  unfold aset
  rw [alookup_cons]
  simp

/-- Erasing a key makes it absent. -/
theorem alookup_aerase_self {α : Type} (m : List (String × α)) (k : String) :
    alookup (aerase m k) k = none := by
  induction m with
  | nil => rfl
  | cons a rest ih =>
    cases hb : (a.1 == k) with
    | true =>
      rw [aerase_cons_drop _ _ _ hb]
      exact ih
    | false =>
      rw [aerase_cons_keep _ _ _ hb, alookup_cons, hb]
      simpa using ih

/-- Erasing one key leaves lookups of other keys unchanged. -/
theorem alookup_aerase_other {α : Type} (m : List (String × α)) (k k2 : String)
    (h : k2 ≠ k) : alookup (aerase m k) k2 = alookup m k2 := by
  induction m with
  | nil => rfl
  | cons a rest ih =>
    cases hb : (a.1 == k) with
    | true =>
      have hak : a.1 = k := by simpa using hb
      have hb2 : (a.1 == k2) = false := by simp [hak, Ne.symm h]
      rw [aerase_cons_drop _ _ _ hb, ih, alookup_cons, hb2]
      simp
    | false =>
      rw [aerase_cons_keep _ _ _ hb, alookup_cons, alookup_cons, ih]

/-- Setting one key leaves lookups of other keys unchanged. -/
theorem alookup_aset_other {α : Type} (m : List (String × α)) (k k2 : String) (v : α)
    (h : k2 ≠ k) : alookup (aset m k v) k2 = alookup m k2 := by
  unfold aset
  rw [alookup_cons]
  have hb : ((k, v).1 == k2) = false := by simp [Ne.symm h]
  rw [hb]
  have h2 := alookup_aerase_other m k k2 h
  unfold aerase at h2
  simpa using h2

/-- Erasing a key twice is the same as erasing it once. -/
theorem aerase_aerase {α : Type} (m : List (String × α)) (k : String) :
    aerase (aerase m k) k = aerase m k := by
  unfold aerase
  rw [List.filter_filter]
  simp

/-! Helper lemmas about `prepareDevice` and the prepare loop. -/

/-- A claim with zero granted devices makes `prepareDevice` fail with the
explicit error. -/
theorem prepareDevice_zero (claim : ResourceClaim) (h : zeroDevices claim) :
    prepareDevice claim
      = Except.error (NetError.other ("claim " ++ claim.name ++ " has no allocated devices")) := by
  rcases h with h | h <;> simp [prepareDevice, h]

/-- If every claim in the batch carrying a given UID has zero granted
devices, the prepare loop leaves the prepared-data map unchanged at that
UID. -/
theorem prepLoop_preparedData_zero (u : String) :
    ∀ (claims : List ResourceClaim) (st : SharedState)
      (results : List (String × Option NetError)),
    (∀ c ∈ claims, c.uid = u → zeroDevices c) →
    alookup (prepLoop st results claims).1.preparedData u = alookup st.preparedData u := by
  intro claims
  induction claims with
  | nil => intro st results _; rfl
  | cons c rest ih =>
    intro st results h
    cases hpd : prepareDevice c with
    | error e =>
      simp only [prepLoop]
      rw [hpd]
      exact ih st _ (fun c' hc' hu' => h c' (List.mem_cons_of_mem _ hc') hu')
    | ok p =>
      have hcu : c.uid ≠ u := by
        intro hcu
        have hz := h c (List.mem_cons_self _ _) hcu
        rw [prepareDevice_zero c hz] at hpd
        cases hpd
      simp only [prepLoop]
      rw [hpd]
      rw [ih _ _ (fun c' hc' hu' => h c' (List.mem_cons_of_mem _ hc') hu')]
      exact alookup_aset_other _ _ _ _ (Ne.symm hcu)

/-- Once the results map records an error for a UID whose remaining claims
all have zero granted devices, the prepare loop keeps recording an error for
that UID. -/
theorem prepLoop_results_keep (u : String) :
    ∀ (claims : List ResourceClaim) (st : SharedState)
      (results : List (String × Option NetError)),
    (∀ c ∈ claims, c.uid = u → zeroDevices c) →
    (∃ e, alookup results u = some (some e)) →
    ∃ e, alookup (prepLoop st results claims).2 u = some (some e) := by
  intro claims
  induction claims with
  | nil => intro st results _ hres; exact hres
  | cons c rest ih =>
    intro st results h hres
    have hrest : ∀ c' ∈ rest, c'.uid = u → zeroDevices c' :=
      fun c' hc' hu' => h c' (List.mem_cons_of_mem _ hc') hu'
    cases hpd : prepareDevice c with
    | error e =>
      simp only [prepLoop]
      rw [hpd]
      by_cases hcu : c.uid = u
      · exact ih _ _ hrest ⟨e, by rw [hcu]; exact alookup_aset_self _ _ _⟩
      · obtain ⟨e0, he0⟩ := hres
        exact ih _ _ hrest
          ⟨e0, by rw [alookup_aset_other _ _ _ _ (Ne.symm hcu)]; exact he0⟩
    | ok p =>
      have hcu : c.uid ≠ u := by
        intro hcu
        have hz := h c (List.mem_cons_self _ _) hcu
        rw [prepareDevice_zero c hz] at hpd
        cases hpd
      simp only [prepLoop]
      rw [hpd]
      obtain ⟨e0, he0⟩ := hres
      exact ih _ _ hrest
        ⟨e0, by rw [alookup_aset_other _ _ _ _ (Ne.symm hcu)]; exact he0⟩

/-- If some claim in the batch carries a given UID and every claim with that
UID has zero granted devices, the prepare loop's results map records an
error for that UID. -/
theorem prepLoop_results_error (u : String) :
    ∀ (claims : List ResourceClaim) (st : SharedState)
      (results : List (String × Option NetError)),
    (∃ c ∈ claims, c.uid = u) →
    (∀ c ∈ claims, c.uid = u → zeroDevices c) →
    ∃ e, alookup (prepLoop st results claims).2 u = some (some e) := by
  intro claims
  induction claims with
  | nil => intro st results hex _; obtain ⟨c, hc, _⟩ := hex; cases hc
  | cons c rest ih =>
    intro st results hex h
    have hrest : ∀ c' ∈ rest, c'.uid = u → zeroDevices c' :=
      fun c' hc' hu' => h c' (List.mem_cons_of_mem _ hc') hu'
    by_cases hcu : c.uid = u
    · have hz := h c (List.mem_cons_self _ _) hcu
      simp only [prepLoop]
      rw [prepareDevice_zero c hz]
      exact prepLoop_results_keep u rest _ _ hrest
        ⟨_, by rw [hcu]; exact alookup_aset_self _ _ _⟩
    · obtain ⟨c', hc', hu'⟩ := hex
      have hc'rest : c' ∈ rest := by
        rcases List.mem_cons.mp hc' with h1 | h1
        · exact absurd (h1 ▸ hu') hcu
        · exact h1
      cases hpd : prepareDevice c with
      | error e =>
        simp only [prepLoop]
        rw [hpd]
        exact ih _ _ ⟨c', hc'rest, hu'⟩ hrest
      | ok p =>
        simp only [prepLoop]
        rw [hpd]
        exact ih _ _ ⟨c', hc'rest, hu'⟩ hrest

/-! Claim theorems: state-store operations. -/

/-- C4: for every claim whose allocation result carries zero granted devices
(no allocation, or an empty device-results list), prepare
(`prepareDevice` via `PrepareResourceClaims`) returns a
precondition-violation error for that claim, and the State Store gains no
prepared-artifact entry for that claim's identity. -/
theorem C4_prepare_zero_devices (st : SharedState) (claims : List ResourceClaim)
    (claim : ResourceClaim) (hin : claim ∈ claims)
    (hall : ∀ c ∈ claims, c.uid = claim.uid → zeroDevices c) :
    (∃ e, alookup (prepareResourceClaims st claims).2 claim.uid = some (some e)) ∧
    alookup (prepareResourceClaims st claims).1.preparedData claim.uid
      = alookup st.preparedData claim.uid := by
  constructor
  · exact prepLoop_results_error claim.uid claims st [] ⟨claim, hin, rfl⟩ hall
  · exact prepLoop_preparedData_zero claim.uid claims st [] hall

/-- Witness for C4 at a concrete zero-device claim against the empty state. -/
theorem C4_prepare_zero_devices_witness :
    (∃ e, alookup (prepareResourceClaims initialSharedState [zeroClaim0]).2 "c1"
      = some (some e)) ∧
    alookup (prepareResourceClaims initialSharedState [zeroClaim0]).1.preparedData "c1"
      = alookup initialSharedState.preparedData "c1" := by
  have h := C4_prepare_zero_devices initialSharedState [zeroClaim0] zeroClaim0
    (List.mem_singleton.mpr rfl)
    (by
      intro c hc hu
      rw [List.mem_singleton.mp hc]
      exact Or.inl rfl)
  exact h

/-- C5: after the removed-event handler (`RemovePodSandbox`) runs for a
workload identity, the State Store contains no entry (neither allocated
devices nor prepared artifact) for that identity and the handler returns
success, for every prior state. -/
theorem C5_remove_purges (st : SharedState) (pod : Pod) :
    alookup (removePodSandbox st pod).1.podDeviceConfig pod.uid = none ∧
    alookup (removePodSandbox st pod).1.preparedData pod.uid = none ∧
    (removePodSandbox st pod).2 = none :=
  ⟨alookup_aerase_self _ _, alookup_aerase_self _ _, rfl⟩

/-- C6: unprepare (`UnprepareResourceClaims`) is idempotent: one call and
two calls for the same identity leave the same state, neither call records
an error (also when nothing was ever prepared), and the prepared-artifact
entry for that identity is gone afterwards. -/
theorem C6_unprepare_idempotent (st : SharedState) (obj : NamespacedObject) :
    (unprepareResourceClaims st [obj]).2 = [] ∧
    (unprepareResourceClaims (unprepareResourceClaims st [obj]).1 [obj]).2 = [] ∧
    (unprepareResourceClaims (unprepareResourceClaims st [obj]).1 [obj]).1
      = (unprepareResourceClaims st [obj]).1 ∧
    alookup (unprepareResourceClaims st [obj]).1.preparedData obj.uid = none := by
  refine ⟨rfl, rfl, ?_, ?_⟩
  · show ({ st with preparedData := aerase (aerase st.preparedData obj.uid) obj.uid }
      : SharedState)
      = { st with preparedData := aerase st.preparedData obj.uid }
    rw [aerase_aerase]
  · show alookup (aerase st.preparedData obj.uid) obj.uid = none
    exact alookup_aerase_self _ _

/-! Trace lemmas for the lifecycle handlers. -/

/-- Filtering a lock-wrapped trace ignores the lock and unlock events for
any predicate false on them. -/
theorem filter_lockWrap (p : Event → Bool) (hl : p Event.lock = false)
    (hu : p Event.unlock = false) (mid : List Event) :
    List.filter p (Event.lock :: mid ++ [Event.unlock]) = List.filter p mid := by
  simp [List.filter_cons, List.filter_append, hl, hu]

/-- Taking up to the final unlock of a trace segment free of unlock events
returns the whole segment. -/
theorem takeWhile_until_unlock (mid : List Event)
    (h : ∀ e ∈ mid, isUnlockEvent e = false) :
    List.takeWhile (fun e => !isUnlockEvent e) (mid ++ [Event.unlock]) = mid := by
  induction mid with
  | nil => simp [List.takeWhile_cons, isUnlockEvent]
  | cons a rest ih =>
    have ha := h a (List.mem_cons_self _ _)
    rw [List.cons_append, List.takeWhile_cons]
    simp [ha, ih (fun e he => h e (List.mem_cons_of_mem _ he))]

/-- The critical section of a lock-wrapped trace whose body has no unlock
events is exactly that body. -/
theorem criticalEvents_wrap (mid : List Event)
    (h : ∀ e ∈ mid, isUnlockEvent e = false) :
    criticalEvents (Event.lock :: mid ++ [Event.unlock]) = mid := by
  have h1 : (Event.lock :: mid ++ [Event.unlock]).dropWhile (fun e => !isLockEvent e)
      = Event.lock :: mid ++ [Event.unlock] := by
    simp [isLockEvent]
  unfold criticalEvents
  rw [h1, List.drop_one]
  exact takeWhile_until_unlock mid h

/-- Every event emitted by `configureDeviceForPod` is an attach on the given
namespace. -/
theorem configureDeviceForPod_events (attach : String → String → Option NetError)
    (d : AllocatedDevice) (ns : String) (p : Option Prepared) :
    ∀ e ∈ (configureDeviceForPod attach d ns p).1, ∃ s, e = Event.attach s ns := by
  intro e he
  cases p with
  | none => simp [configureDeviceForPod] at he
  | some pp =>
    cases pp with
    | str s =>
      simp [configureDeviceForPod] at he
      exact ⟨s, he⟩
    | nonString => simp [configureDeviceForPod] at he

/-- Every event emitted by the `RunPodSandbox` device loop is an attach on
the given namespace. -/
theorem runLoop_events (attach : String → String → Option NetError) (ns : String)
    (p : Option Prepared) :
    ∀ devices, ∀ e ∈ (runLoop attach ns p devices).1, ∃ s, e = Event.attach s ns := by
  intro devices
  induction devices with
  | nil => intro e he; simp [runLoop] at he
  | cons d rest ih =>
    intro e he
    rcases hc : configureDeviceForPod attach d ns p with ⟨evs, r⟩
    cases r with
    | some err =>
      simp only [runLoop, hc] at he
      exact configureDeviceForPod_events attach d ns p e (by rw [hc]; exact he)
    | none =>
      rcases hr : runLoop attach ns p rest with ⟨evs2, r2⟩
      simp only [runLoop, hc, hr] at he
      rcases List.mem_append.mp he with h1 | h1
      · exact configureDeviceForPod_events attach d ns p e (by rw [hc]; exact h1)
      · exact ih e (by rw [hr]; exact h1)

/-- Every event emitted by the `StopPodSandbox` device loop is a detach on
the given namespace. -/
theorem stopLoop_events (detach : String → String → Option NetError) (ns : String)
    (p : Option Prepared) :
    ∀ devices, ∀ e ∈ stopLoop detach ns p devices, ∃ s, e = Event.detach s ns := by
  intro devices
  induction devices with
  | nil => intro e he; simp [stopLoop] at he
  | cons d rest ih =>
    intro e he
    simp only [stopLoop] at he
    rcases List.mem_append.mp he with h1 | h1
    · cases p with
      | none => simp [cleanupDeviceForPod] at h1
      | some pp =>
        cases pp with
        | str s =>
          simp [cleanupDeviceForPod] at h1
          exact ⟨s, h1⟩
        | nonString => simp [cleanupDeviceForPod] at h1
    · exact ih e h1

/-- With a string prepared artifact the stop loop emits exactly one detach
per allocated device. -/
theorem stopLoop_prepared (detach : String → String → Option NetError) (ns s : String) :
    ∀ devices : List AllocatedDevice,
    stopLoop detach ns (some (Prepared.str s)) devices
      = devices.map (fun _ => Event.detach s ns) := by
  intro devices
  induction devices with
  | nil => rfl
  | cons d rest ih => simp [stopLoop, cleanupDeviceForPod, ih]

/-- Shape of the ready-handler trace when a network namespace is present:
the whole body, relocation calls included, sits between lock and unlock. -/
theorem runPodSandbox_trace (attach : String → String → Option NetError)
    (st : SharedState) (pod : Pod) (hns : getNetworkNamespace pod ≠ "") :
    (runPodSandbox attach st pod).1
      = Event.lock :: (runLoop attach (getNetworkNamespace pod)
          (alookup st.preparedData pod.uid)
          ((alookup st.podDeviceConfig pod.uid).getD [])).1 ++ [Event.unlock] := by
  simp [runPodSandbox, hns]

/-- The ready handler emits no relocation event when the workload has no
allocated-devices entry. -/
theorem runPodSandbox_filter_reloc_empty (attach : String → String → Option NetError)
    (st : SharedState) (pod : Pod)
    (h : alookup st.podDeviceConfig pod.uid = none) :
    List.filter isRelocEvent (runPodSandbox attach st pod).1 = [] := by
  by_cases hns : getNetworkNamespace pod = ""
  · simp [runPodSandbox, hns]
  · rw [runPodSandbox_trace attach st pod hns, h]
    simp [runLoop, isRelocEvent]

/-- The stopping handler emits no relocation event when the workload has no
allocated-devices entry. -/
theorem stopPodSandbox_filter_reloc_empty (detach : String → String → Option NetError)
    (st : SharedState) (pod : Pod)
    (h : alookup st.podDeviceConfig pod.uid = none) :
    List.filter isRelocEvent (stopPodSandbox detach st pod).1 = [] := by
  have hst : (stopPodSandbox detach st pod).1
      = Event.lock :: stopLoop detach (getNetworkNamespace pod)
          (alookup st.preparedData pod.uid)
          ((alookup st.podDeviceConfig pod.uid).getD []) ++ [Event.unlock] := rfl
  rw [hst, h]
  simp [stopLoop, isRelocEvent]

/-- When no namespace of type "network" is present, `getNetworkNamespace`
returns the empty string. -/
theorem getNetworkNamespace_eq_empty (pod : Pod)
    (h : ∀ ns ∈ pod.namespaces, ns.1 ≠ "network") :
    getNetworkNamespace pod = "" := by
  have hf : pod.namespaces.find? (fun ns => ns.1 == "network") = none := by
    rw [List.find?_eq_none]
    intro x hx
    simpa using h x hx
  simp [getNetworkNamespace, hf]

/-! Claim theorems: lifecycle handlers. -/

/-- C3 fails on the code: at a concrete state holding one allocated device
with a prepared artifact, the ready handler's attach call happens between
the lock acquisition and its release, refuting the claim that every
invocation keeps relocation calls outside the critical section. -/
theorem C3_no_io_under_lock_counterexample :
    ¬ (∀ (attach detach : String → String → Option NetError)
        (st : SharedState) (pod : Pod),
        relocOutsideLock (runPodSandbox attach st pod).1 = true ∧
        relocOutsideLock (stopPodSandbox detach st pod).1 = true) := by
  intro h
  have h2 := (h (fun _ _ => none) (fun _ _ => none) st0 pod0).1
  exact absurd h2 (by decide)

/-- C3 amended: every relocation-engine call made by the ready and stopping
handlers occurs inside the critical section — with the allocation and
prepared artifact read and each device configured or cleaned up while the
single exclusion lock is held — so the lock serializes relocation work
rather than excluding it. -/
theorem C3_reloc_inside_lock (attach detach : String → String → Option NetError)
    (st : SharedState) (pod : Pod) :
    List.filter isRelocEvent (runPodSandbox attach st pod).1
      = List.filter isRelocEvent (criticalEvents (runPodSandbox attach st pod).1) ∧
    List.filter isRelocEvent (stopPodSandbox detach st pod).1
      = List.filter isRelocEvent (criticalEvents (stopPodSandbox detach st pod).1) := by
  constructor
  · by_cases hns : getNetworkNamespace pod = ""
    · simp [runPodSandbox, hns, criticalEvents]
    · rw [runPodSandbox_trace attach st pod hns]
      have hmid : ∀ e ∈ (runLoop attach (getNetworkNamespace pod)
          (alookup st.preparedData pod.uid)
          ((alookup st.podDeviceConfig pod.uid).getD [])).1, isUnlockEvent e = false := by
        intro e he
        obtain ⟨s, rfl⟩ := runLoop_events attach _ _ _ e he
        rfl
      rw [criticalEvents_wrap _ hmid, filter_lockWrap isRelocEvent rfl rfl]
  · have hst : (stopPodSandbox detach st pod).1
        = Event.lock :: stopLoop detach (getNetworkNamespace pod)
            (alookup st.preparedData pod.uid)
            ((alookup st.podDeviceConfig pod.uid).getD []) ++ [Event.unlock] := rfl
    rw [hst]
    have hmid : ∀ e ∈ stopLoop detach (getNetworkNamespace pod)
        (alookup st.preparedData pod.uid)
        ((alookup st.podDeviceConfig pod.uid).getD []), isUnlockEvent e = false := by
      intro e he
      obtain ⟨s, rfl⟩ := stopLoop_events detach _ _ _ e he
      rfl
    rw [criticalEvents_wrap _ hmid, filter_lockWrap isRelocEvent rfl rfl]

/-- C7: the stopping handler returns success for every state and oracle, and
with a prepared string artifact it attempts one detach per allocated device
even when individual detaches fail. -/
theorem C7_best_effort_detach (detach : String → String → Option NetError)
    (st : SharedState) (pod : Pod) (s : String)
    (hp : alookup st.preparedData pod.uid = some (Prepared.str s)) :
    (stopPodSandbox detach st pod).2 = none ∧
    (List.filter isDetachEvent (stopPodSandbox detach st pod).1).length
      = ((alookup st.podDeviceConfig pod.uid).getD []).length := by
  constructor
  · rfl
  · have hst : (stopPodSandbox detach st pod).1
        = Event.lock :: stopLoop detach (getNetworkNamespace pod)
            (alookup st.preparedData pod.uid)
            ((alookup st.podDeviceConfig pod.uid).getD []) ++ [Event.unlock] := rfl
    rw [hst, filter_lockWrap isDetachEvent rfl rfl, hp,
      stopLoop_prepared detach (getNetworkNamespace pod) s
        ((alookup st.podDeviceConfig pod.uid).getD [])]
    rw [List.filter_eq_self.mpr]
    · simp
    · intro a ha
      obtain ⟨d, hd, rfl⟩ := List.mem_map.mp ha
      rfl

/-- Witness for C7: two allocated devices, an always-failing detach oracle;
the handler still returns success with one detach attempt per device. -/
theorem C7_best_effort_detach_witness :
    (stopPodSandbox (fun _ _ => some (NetError.other "boom")) st2 pod0).2 = none ∧
    (List.filter isDetachEvent
      (stopPodSandbox (fun _ _ => some (NetError.other "boom")) st2 pod0).1).length
      = ((alookup st2.podDeviceConfig pod0.uid).getD []).length :=
  C7_best_effort_detach (fun _ _ => some (NetError.other "boom")) st2 pod0 "eth-phys0"
    (by decide)

/-- C8: for every ready event whose workload reports no namespace of type
"network", the ready handler returns a hard error and emits no event, in
particular no attach. -/
theorem C8_no_namespace_hard_error (attach : String → String → Option NetError)
    (st : SharedState) (pod : Pod)
    (h : ∀ ns ∈ pod.namespaces, ns.1 ≠ "network") :
    (∃ e, (runPodSandbox attach st pod).2 = some e) ∧
    (runPodSandbox attach st pod).1 = [] := by
  have hns := getNetworkNamespace_eq_empty pod h
  constructor
  · refine ⟨NetError.other ("pod " ++ pod.podNamespace ++ "/" ++ pod.name
      ++ " has no network namespace"), ?_⟩
    simp [runPodSandbox, hns]
  · simp [runPodSandbox, hns]

/-- Witness for C8 at a concrete pod without a network namespace and a
state that does hold devices for it. -/
theorem C8_no_namespace_hard_error_witness :
    (∃ e, (runPodSandbox (fun _ _ => none) st0 podNoNet).2 = some e) ∧
    (runPodSandbox (fun _ _ => none) st0 podNoNet).1 = [] :=
  C8_no_namespace_hard_error (fun _ _ => none) st0 podNoNet (by decide)

/-! Reachability lemmas for C9. -/

/-- The prepare loop never touches the allocated-devices map. -/
theorem prepLoop_podDeviceConfig :
    ∀ (claims : List ResourceClaim) (st : SharedState)
      (results : List (String × Option NetError)),
    (prepLoop st results claims).1.podDeviceConfig = st.podDeviceConfig := by
  intro claims
  induction claims with
  | nil => intro st results; rfl
  | cons c rest ih =>
    intro st results
    cases hpd : prepareDevice c with
    | error e =>
      simp only [prepLoop]
      rw [hpd]
      exact ih _ _
    | ok p =>
      simp only [prepLoop]
      rw [hpd]
      exact ih _ _

/-- The unprepare loop never touches the allocated-devices map. -/
theorem unprepLoop_podDeviceConfig :
    ∀ (objs : List NamespacedObject) (st : SharedState)
      (errs : List (String × NetError)),
    (unprepLoop st errs objs).1.podDeviceConfig = st.podDeviceConfig := by
  intro objs
  induction objs with
  | nil => intro st errs; rfl
  | cons o rest ih =>
    intro st errs
    simp only [unprepLoop, unprepareDevice]
    exact ih _ _

/-- No driver operation can populate an empty allocated-devices map. -/
theorem applyOp_podDeviceConfig_empty (st : SharedState) (op : Op)
    (h : st.podDeviceConfig = []) : (applyOp st op).podDeviceConfig = [] := by
  cases op with
  | prepare claims =>
    simp only [applyOp, prepareResourceClaims]
    rw [prepLoop_podDeviceConfig]
    exact h
  | unprepare objs =>
    simp only [applyOp, unprepareResourceClaims]
    rw [unprepLoop_podDeviceConfig]
    exact h
  | runPod p => exact h
  | stopPod p => exact h
  | removePod p =>
    simp only [applyOp, removePodSandbox]
    rw [h]
    rfl

/-- Every state reached from the initial state keeps the allocated-devices
map empty. -/
theorem foldl_applyOp_podDeviceConfig :
    ∀ (ops : List Op) (st : SharedState), st.podDeviceConfig = [] →
    (List.foldl applyOp st ops).podDeviceConfig = [] := by
  intro ops
  induction ops with
  | nil => intro st h; exact h
  | cons op rest ih =>
    intro st h
    rw [List.foldl_cons]
    exact ih _ (applyOp_podDeviceConfig_empty st op h)

/-- C9: no operation of the driver ever inserts into the allocated-devices
map — the only mutation is deletion on removal — so in every reachable
state the map is empty, the handlers read an empty device list, and neither
the ready nor the stopping handler ever invokes the relocation engine. -/
theorem C9_no_allocated_devices (ops : List Op)
    (attach detach : String → String → Option NetError) (pod : Pod) :
    (List.foldl applyOp initialSharedState ops).podDeviceConfig = [] ∧
    alookup (List.foldl applyOp initialSharedState ops).podDeviceConfig pod.uid = none ∧
    List.filter isRelocEvent
      (runPodSandbox attach (List.foldl applyOp initialSharedState ops) pod).1 = [] ∧
    List.filter isRelocEvent
      (stopPodSandbox detach (List.foldl applyOp initialSharedState ops) pod).1 = [] ∧
    (∀ (st : SharedState) (op : Op),
      (applyOp st op).podDeviceConfig = st.podDeviceConfig ∨
      ∃ p, op = Op.removePod p ∧
        (applyOp st op).podDeviceConfig = aerase st.podDeviceConfig p.uid) := by
  have hempty := foldl_applyOp_podDeviceConfig ops initialSharedState rfl
  have hlook : alookup (List.foldl applyOp initialSharedState ops).podDeviceConfig pod.uid
      = none := by
    rw [hempty]
    rfl
  refine ⟨hempty, hlook, runPodSandbox_filter_reloc_empty _ _ _ hlook,
    stopPodSandbox_filter_reloc_empty _ _ _ hlook, ?_⟩
  intro st op
  cases op with
  | prepare claims =>
    left
    simp only [applyOp, prepareResourceClaims]
    exact prepLoop_podDeviceConfig _ _ _
  | unprepare objs =>
    left
    simp only [applyOp, unprepareResourceClaims]
    exact unprepLoop_podDeviceConfig _ _ _
  | runPod p => left; rfl
  | stopPod p => left; rfl
  | removePod p => right; exact ⟨p, rfl, rfl⟩

/-- C10: the stopping handler performs no missing-namespace check: for every
stopping event whose workload reports no namespace of type "network" it
proceeds with the empty namespace path through the per-device cleanup loop
and returns success, every detach being invoked with the empty path. -/
theorem C10_stop_without_namespace (detach : String → String → Option NetError)
    (st : SharedState) (pod : Pod)
    (h : ∀ ns ∈ pod.namespaces, ns.1 ≠ "network") :
    (stopPodSandbox detach st pod).2 = none ∧
    (stopPodSandbox detach st pod).1
      = Event.lock :: stopLoop detach "" (alookup st.preparedData pod.uid)
          ((alookup st.podDeviceConfig pod.uid).getD []) ++ [Event.unlock] ∧
    (∀ s n, Event.detach s n ∈ (stopPodSandbox detach st pod).1 → n = "") := by
  have hns := getNetworkNamespace_eq_empty pod h
  have hst : (stopPodSandbox detach st pod).1
      = Event.lock :: stopLoop detach (getNetworkNamespace pod)
          (alookup st.preparedData pod.uid)
          ((alookup st.podDeviceConfig pod.uid).getD []) ++ [Event.unlock] := rfl
  refine ⟨rfl, ?_, ?_⟩
  · rw [hst, hns]
  · intro s n hmem
    rw [hst] at hmem
    rcases List.mem_cons.mp hmem with h1 | h1
    · exact Event.noConfusion h1
    · rcases List.mem_append.mp h1 with h2 | h2
      · obtain ⟨s2, heq⟩ := stopLoop_events detach _ _ _ _ h2
        rw [hns] at heq
        injection heq with heq1 heq2
      · rw [List.mem_singleton] at h2
        exact Event.noConfusion h2

/-- Witness for C10: a pod without a network namespace against a state
holding a device; the handler returns success and its trace runs the
cleanup loop on the empty path. -/
theorem C10_stop_without_namespace_witness :
    (stopPodSandbox (fun _ _ => none) st0 podNoNet).2 = none ∧
    (stopPodSandbox (fun _ _ => none) st0 podNoNet).1
      = Event.lock :: stopLoop (fun _ _ => none) "" (alookup st0.preparedData podNoNet.uid)
          ((alookup st0.podDeviceConfig podNoNet.uid).getD []) ++ [Event.unlock] :=
  ⟨(C10_stop_without_namespace (fun _ _ => none) st0 podNoNet (by decide)).1,
   (C10_stop_without_namespace (fun _ _ => none) st0 podNoNet (by decide)).2.1⟩

/-! Lemmas and claim theorems for the relocation engine. -/

/-- The name carried in the detach rename-and-move request, when the run
reaches the request construction: `outName` when non-empty, else the alias
when non-empty, else the recorded device name. -/
theorem NsDetachNetdev_sentName (K : DetachKernel) (p d o : String) :
    (NsDetachNetdev K p d o).sentName = none ∨
    (NsDetachNetdev K p d o).sentName
      = some (if o ≠ "" then o
          else if K.linkByNameNs.link.linkAlias ≠ "" then K.linkByNameNs.link.linkAlias
          else K.linkByNameNs.link.name) := by
  unfold NsDetachNetdev
  repeat' split
  all_goals first
    | (left; rfl)
    | (right; rfl)
    | (right; simp_all)

/-- When every address assignment succeeds the attach address loop reports
the whole address list. -/
theorem addAddresses_all_none (f : Nat → Option NetError) (cp : String)
    (hf : ∀ i, f i = none) : ∀ (i : Nat) (l : List String),
    addAddresses f cp i l = Except.ok l := by
  intro i l
  induction l generalizing i with
  | nil => rfl
  | cons a rest ih =>
    unfold addAddresses
    rw [hf i, ih (i + 1)]

/-- C1 fails on the code: at a concrete detach run whose in-namespace device
carries alias "orig" while the non-empty restoreName "rest" is passed, the
rename-and-move request carries "rest", not the alias. -/
theorem C1_alias_preference_counterexample :
    ¬ (∀ (K : DetachKernel) (p d o : String), o ≠ "" →
        K.linkByNameNs.link.linkAlias ≠ "" →
        (NsDetachNetdev K p d o).sentName = some K.linkByNameNs.link.linkAlias) := by
  intro h
  have h2 := h detachK0 "/run/netns/ns1" "eth0" "rest" (by decide) (by decide)
  exact absurd h2 (by decide)

/-- C1 amended: in `NsDetachNetdev` the name sent to the kernel in the
rename-and-move request equals the `restoreName` (`outName`) argument
whenever it is non-empty, overriding any recorded alias; only when
`restoreName` is empty is the device's non-empty alias used. -/
theorem C1_restoreName_overrides_alias :
    (∀ (K : DetachKernel) (p d o : String), o ≠ "" →
      ∀ s, (NsDetachNetdev K p d o).sentName = some s → s = o) ∧
    (∀ (K : DetachKernel) (p d : String), K.linkByNameNs.link.linkAlias ≠ "" →
      ∀ s, (NsDetachNetdev K p d "").sentName = some s
        → s = K.linkByNameNs.link.linkAlias) := by
  constructor
  · intro K p d o ho s hs
    rcases NsDetachNetdev_sentName K p d o with h1 | h1
    · rw [h1] at hs
      cases hs
    · rw [h1, if_pos ho] at hs
      exact (Option.some.inj hs).symm
  · intro K p d halias s hs
    rcases NsDetachNetdev_sentName K p d "" with h1 | h1
    · rw [h1] at hs
      cases hs
    · rw [h1, if_neg (by simp), if_pos halias] at hs
      exact (Option.some.inj hs).symm

/-- Witness for C1 at the concrete aliased device and restoreName "rest". -/
theorem C1_restoreName_overrides_alias_witness :
    (NsDetachNetdev detachK0 "/run/netns/ns1" "eth0" "rest").sentName = some "rest"
      ∧ "rest" = "rest" := by
  have h := C1_restoreName_overrides_alias.1 detachK0 "/run/netns/ns1" "eth0" "rest"
    (by decide) "rest" (by decide)
  exact ⟨by decide, h.symm ▸ rfl⟩

/-- C2 fails on the code: the in-namespace device enumeration inside
`NsDetachNetdev` propagates a dump-interrupted-only report as a hard
failure, shown at a concrete detach run where every other kernel call
succeeds. -/
theorem C2_dump_interrupted_counterexample :
    ¬ (∀ (K : DetachKernel) (p d o : String),
        K.linkByNameNs.err = some NetError.dumpInterrupted →
        K.getNsErr = none → K.newHandleErr = none → K.linkSetDownErr = none →
        K.getRootNsErr = none → K.getSocketErr = none → K.executeErr = none →
        K.linkByNameHost.err = none → K.linkSetUpErr = none →
        (NsDetachNetdev K p d o).result = none) := by
  intro h
  have h2 := h detachKInterrupted "/run/netns/ns1" "eth0" "eth0"
    rfl rfl rfl rfl rfl rfl rfl rfl rfl
  exact absurd h2 (by decide)

/-- C2 amended: `NsAttachNetdev` absorbs a dump-interrupted-only report at
every kernel step that checks for it (host enumeration, request execution,
in-namespace enumeration) and proceeds; `NsDetachNetdev` absorbs it only at
its host-side re-resolution after the move, while its initial in-namespace
device enumeration propagates it as a hard failure. -/
theorem C2_dump_interrupted_amended :
    (∀ (K : AttachKernel) (hn cp : String) (na : LinkAttrs) (addrs : List String),
      (K.linkByNameHost.err = none ∨ K.linkByNameHost.err = some NetError.dumpInterrupted) →
      (K.executeErr = none ∨ K.executeErr = some NetError.dumpInterrupted) →
      (K.linkByNameNs.err = none ∨ K.linkByNameNs.err = some NetError.dumpInterrupted) →
      K.linkSetDownErr = none → K.getNsErr = none → K.getSocketErr = none →
      K.newHandleErr = none → (∀ i, K.addrAddErr i = none) → K.linkSetUpErr = none →
      (NsAttachNetdev K hn cp na addrs).result
        = Except.ok { interfaceName := K.linkByNameNs.link.name, hardwareAddress := K.linkByNameNs.link.hardwareAddr, ips := addrs }) ∧
    (∀ (K : DetachKernel) (p d o : String),
      (K.linkByNameHost.err = none ∨ K.linkByNameHost.err = some NetError.dumpInterrupted) →
      K.getNsErr = none → K.newHandleErr = none → K.linkByNameNs.err = none →
      K.linkSetDownErr = none → K.getRootNsErr = none → K.getSocketErr = none →
      K.executeErr = none → K.linkSetUpErr = none →
      (NsDetachNetdev K p d o).result = none) ∧
    (∀ (K : DetachKernel) (p d o : String),
      K.getNsErr = none → K.newHandleErr = none →
      K.linkByNameNs.err = some NetError.dumpInterrupted →
      ∃ e, (NsDetachNetdev K p d o).result = some e) := by
  refine ⟨?_, ?_, ?_⟩
  · intro K hn cp na addrs h1 h2 h3 hd hns hsock hnh haddr hup
    have ha1 : absorbDumpInterrupted K.linkByNameHost.err = none := by
      rcases h1 with h1 | h1 <;> rw [h1] <;> rfl
    have ha2 : absorbDumpInterrupted K.executeErr = none := by
      rcases h2 with h2 | h2 <;> rw [h2] <;> rfl
    have ha3 : absorbDumpInterrupted K.linkByNameNs.err = none := by
      rcases h3 with h3 | h3 <;> rw [h3] <;> rfl
    have haddr2 : addAddresses K.addrAddErr cp 0 addrs = Except.ok addrs :=
      addAddresses_all_none K.addrAddErr cp haddr 0 addrs
    unfold NsAttachNetdev
    rw [ha1, hd, hns, hsock, ha2, hnh, ha3, haddr2, hup]
    simp [wrapErr]
  · intro K p d o h1 hg hnh hlns hsd hgr hgs hex hsu
    have ha : absorbDumpInterrupted K.linkByNameHost.err = none := by
      rcases h1 with h1 | h1 <;> rw [h1] <;> rfl
    unfold NsDetachNetdev
    rw [hg, hnh, hlns, hsd, hgr, hgs, hex, ha, hsu]
    simp [wrapErr]
  · intro K p d o hg hnh hlns
    unfold NsDetachNetdev
    rw [hg, hnh, hlns]
    refine ⟨NetError.wrap ("link not found for interface " ++ d ++ " on namespace " ++ p)
      NetError.dumpInterrupted, ?_⟩
    simp [wrapErr]

/-- Witness for C2 at the concrete interrupted kernels: attach proceeds,
detach proceeds over an interrupted host re-resolution, and detach fails on
an interrupted in-namespace enumeration. -/
theorem C2_dump_interrupted_amended_witness :
    (NsAttachNetdev attachK1 "eth-phys0" "/run/ns/w1" emptyLinkAttrs []).result
      = Except.ok { interfaceName := attachK1.linkByNameNs.link.name, hardwareAddress := attachK1.linkByNameNs.link.hardwareAddr, ips := [] } ∧
    (NsDetachNetdev detachKHostInterrupted "/run/ns/w1" "eth0" "eth0").result = none ∧
    (∃ e, (NsDetachNetdev detachKInterrupted "/run/ns/w1" "eth0" "eth0").result = some e) := by
  refine ⟨?_, ?_, ?_⟩
  · exact C2_dump_interrupted_amended.1 attachK1 "eth-phys0" "/run/ns/w1" emptyLinkAttrs []
      (Or.inr rfl) (Or.inr rfl) (Or.inr rfl) rfl rfl rfl rfl (fun i => rfl) rfl
  · exact C2_dump_interrupted_amended.2.1 detachKHostInterrupted "/run/ns/w1" "eth0" "eth0"
      (Or.inr rfl) rfl rfl rfl rfl rfl rfl rfl rfl
  · exact C2_dump_interrupted_amended.2.2 detachKInterrupted "/run/ns/w1" "eth0" "eth0"
      rfl rfl rfl

end KND
